import Mathlib

/-!
# Shallow embedding of the splatoon-stats-api scheduled ingestion pipeline

This file embeds the scheduling/ingestion orchestration of `index.js` and the
cache layer used by the query-serving path (`src/web-api.js`, provided as
`src/unnamed/part_000`) and proves the specified properties about them.

Conventions of the embedding:

* JavaScript promise-returning calls become `Except JobError α` values; an
  `async` function body becomes a sequential Lean function in which an awaited
  rejection aborts the rest of the body (and, when uncaught, escapes the
  callback as an `escaped` outcome).
* Wall-clock time is `Nat` milliseconds (for the daily drain) or `Int`
  milliseconds since the epoch (for the periodic job, matching the numeric
  coercion `new Date() - 120 * 60 * 1000`).
* External collaborators whose outcome the orchestrator merely observes
  (`fetchSplatfestRanking`, `fetchStageRotations`, `fetchLeagueRanking`,
  `tweetLeagueUpdates`, `fetchXRanking`, `queryUnfetchedSplatfests`) are
  parameters of the job functions.
-/

set_option autoImplicit false

namespace SplatoonStats

/-- Errors observed by the orchestrator.  `index.js` distinguishes errors only
by `err instanceof NintendoAPIError` (the expected remote-rejection class from
`src/errors`); every other value is an unexpected error. -/
inductive JobError where
  | nintendoAPIError (msg : String)
  | unexpected (msg : String)
deriving DecidableEq, Repr

/-- Console log levels used by the jobs: `console.log` (info) vs
`console.error` (error). -/
inductive LogLevel where
  | info
  | error
deriving DecidableEq, Repr

/-- Outcome of one scheduled job callback: either the callback's promise
resolves (`completed`) or a rejection escapes the callback (`escaped`). -/
inductive JobOutcome where
  | completed
  | escaped (e : JobError)
deriving DecidableEq, Repr

/-! ## Daily job (`index.js` lines 42–67)

The daily callback is `async`: it awaits `fetchSplatfestSchedules()`, then
`queryUnfetchedSplatfests()`, then loops over the unfetched splatfests with
`await fetchSplatfestRanking(region, splatfest_id)` followed by
`await wait(60000)`.  There is no `try`/`catch` anywhere in the callback, so
any rejection aborts the remainder of the body and escapes the callback. -/

/-- One backlog item, as destructured in the loop header
`for (const { region, splatfest_id } of unfetchedSplatfests)`. -/
structure SplatfestItem where
  region : String
  splatfest_id : Nat
deriving DecidableEq, Repr

/-- One fetch performed by the backlog drain, with the wall-clock times at
which the awaited `fetchSplatfestRanking` call started and settled. -/
structure FetchEv where
  item : SplatfestItem
  startT : Nat
  settleT : Nat
  ok : Bool
deriving DecidableEq, Repr

/-- Events of one daily-job run, in program order. -/
inductive DailyEvent where
  | scheduleSync
  | backlogQuery
  | fetch (ev : FetchEv)
deriving DecidableEq, Repr

/-- Modelled from the spec: `wait` lives in `src/util`, which is not among the
provided sources; per §4.3 it is a fixed timed delay, so awaiting `wait ms`
advances the clock by `ms` milliseconds and always resolves. -/
def wait (now ms : Nat) : Nat := now + ms

/-- The backlog drain loop of the daily job (`index.js` lines 57–62).

For each item the loop awaits `fetchSplatfestRanking(region, splatfest_id)`
(taking `dur item` milliseconds to settle) and then awaits `wait(60000)`.
The loop body has no `try`/`catch`, so a rejected fetch ends the loop and the
rejection escapes. -/
def drainBacklog (fetchSR : SplatfestItem → Except JobError Unit)
    (dur : SplatfestItem → Nat) :
    Nat → List SplatfestItem → List FetchEv × JobOutcome
  | _, [] => ([], .completed)
  | t, item :: rest =>
    match fetchSR item with
    | .error e => ([⟨item, t, t + dur item, false⟩], .escaped e)
    | .ok _ =>
      (⟨item, t, t + dur item, true⟩ ::
          (drainBacklog fetchSR dur (wait (t + dur item) 60000) rest).1,
        (drainBacklog fetchSR dur (wait (t + dur item) 60000) rest).2)

/-- The daily job callback (`index.js` lines 42–67).

* `doNotFetchSplatfest` is `config.DO_NOT_FETCH_SPLATFEST`; when set the
  callback returns immediately.
* `schedFetch` is the outcome of `await fetchSplatfestSchedules()`; it takes
  `schedDur` ms.  A rejection escapes (no catch).
* `backlog` is the row list returned by `await queryUnfetchedSplatfests()`,
  which takes `queryDur` ms.
* The drain then runs as `drainBacklog`. -/
def dailyJob (doNotFetchSplatfest : Bool)
    (schedFetch : Except JobError Unit) (schedDur : Nat)
    (backlog : List SplatfestItem) (queryDur : Nat)
    (fetchSR : SplatfestItem → Except JobError Unit)
    (dur : SplatfestItem → Nat) (t0 : Nat) :
    List DailyEvent × JobOutcome :=
  if doNotFetchSplatfest then ([], .completed)
  else
    match schedFetch with
    | .error e => ([.scheduleSync], .escaped e)
    | .ok _ =>
      (.scheduleSync :: .backlogQuery ::
          (drainBacklog fetchSR dur (t0 + schedDur + queryDur) backlog).1.map
            .fetch,
        (drainBacklog fetchSR dur (t0 + schedDur + queryDur) backlog).2)

/-- The items whose fetch was attempted during a run, in order. -/
def attemptedItems (evs : List FetchEv) : List SplatfestItem :=
  evs.map FetchEv.item

/-- The fetch events of a daily-job trace. -/
def fetchEvents (trace : List DailyEvent) : List FetchEv :=
  trace.filterMap fun ev =>
    match ev with
    | .fetch f => some f
    | _ => none

/-! ## Periodic job (`index.js` lines 19–38)

Every two hours the callback derives
`leagueDate = calculateLeagueDate(new Date() - 120 * 60 * 1000)`, starts the
two league-ranking fetches `` `${leagueDate}T` `` and `` `${leagueDate}P` ``
under `Promise.all`, chains `tweetLeagueUpdates` onto their join, and awaits
`Promise.all([fetchStageRotations(), fetchLeagueRankings().then(tweetLeagueUpdates)])`
with one `.then` (success log) and one `.catch` (classify and log). -/

/-- Modelled from the spec: `calculateLeagueDate` lives in `src/util`, which is
not among the provided sources; per §3 a periodic snapshot identifier is the
2-hour-aligned timestamp of its argument (plus a sub-group tag appended by the
caller), so we model it as the 2-hour bucket index of the millisecond time. -/
def calculateLeagueDate (tMs : Int) : Int :=
  tMs / (2 * 60 * 60 * 1000)

/-- `Promise.all` over two already-started tasks: both tasks run regardless of
each other; the join resolves with the pair of results only when both resolve,
and rejects with a rejection otherwise (the temporally first rejection in JS;
modelled as the left one when both reject). -/
def promiseAll2 {ε α β : Type} (a : Except ε α) (b : Except ε β) :
    Except ε (α × β) :=
  match a, b with
  | .ok x, .ok y => .ok (x, y)
  | .error e, _ => .error e
  | _, .error e => .error e

/-- The `fetchLeagueRankings` closure (`index.js` lines 23–26): the two league
ids fetched, and the joined result. -/
def fetchLeagueRankings {α : Type} (fetch : String → Except JobError α)
    (leagueDate : Int) : List String × Except JobError (List α) :=
  let ids := [toString leagueDate ++ "T", toString leagueDate ++ "P"]
  (ids,
    match promiseAll2 (fetch (toString leagueDate ++ "T"))
        (fetch (toString leagueDate ++ "P")) with
    | .ok (x, y) => .ok [x, y]
    | .error e => .error e)

/-- Everything observable about one run of the periodic callback. -/
structure PeriodicRun (α : Type) where
  /-- The `leagueDate` the callback derived. -/
  leagueDate : Int
  /-- The league ids passed to `fetchLeagueRanking`, in order. -/
  leagueIdsFetched : List String
  /-- Whether `fetchStageRotations()` was started. -/
  rotationStarted : Bool
  /-- The batch passed to `tweetLeagueUpdates`, when it ran. -/
  tweetedBatch : Option (List α)
  /-- Whether the success `console.log` of the combined `.then` ran. -/
  successLogged : Bool
  /-- The error received by the combined `.catch`, with the level it was
  logged at. -/
  caught : Option (LogLevel × JobError)
  /-- Whether a rejection escaped the callback. -/
  escaped : Bool
deriving Repr

/-- The promise `fetchLeagueRankings().then(tweetLeagueUpdates)`: the ranking
join followed by the notification step. -/
def rankingFamily {α : Type} (fetchRanking : String → Except JobError α)
    (tweet : List α → Except JobError Unit) (leagueDate : Int) :
    Except JobError Unit :=
  match (fetchLeagueRankings fetchRanking leagueDate).2 with
  | .error e => .error e
  | .ok batch => tweet batch

/-- The error classification in the periodic job's `.catch`
(`index.js` lines 30–37): `err instanceof NintendoAPIError` is logged with
`console.log`, anything else with `console.error`. -/
def classifyPeriodicError (e : JobError) : LogLevel :=
  match e with
  | .nintendoAPIError _ => .info
  | .unexpected _ => .error

/-- The periodic job callback (`index.js` lines 19–38). -/
def periodicJob {α : Type} (tMs : Int)
    (fetchRotation : Except JobError Unit)
    (fetchRanking : String → Except JobError α)
    (tweet : List α → Except JobError Unit) : PeriodicRun α :=
  let d := calculateLeagueDate (tMs - 120 * 60 * 1000)
  let ids := (fetchLeagueRankings fetchRanking d).1
  let rankings := (fetchLeagueRankings fetchRanking d).2
  -- `.then(tweetLeagueUpdates)` runs exactly when the rankings join resolved.
  let tweeted : Option (List α) :=
    match rankings with
    | .ok batch => some batch
    | .error _ => none
  let combined : Except JobError Unit :=
    match promiseAll2 fetchRotation (rankingFamily fetchRanking tweet d) with
    | .ok _ => .ok ()
    | .error e => .error e
  { leagueDate := d
    leagueIdsFetched := ids
    rotationStarted := true
    tweetedBatch := tweeted
    successLogged := match combined with | .ok _ => true | .error _ => false
    caught := match combined with
      | .ok _ => none
      | .error e => some (classifyPeriodicError e, e)
    escaped := false }

/-- The per-family outcomes of a periodic run: the rotation fetch's result and
the ranking-fetch-plus-notify family's result. -/
def familyOutcomes {α : Type} (fetchRotation : Except JobError Unit)
    (fetchRanking : String → Except JobError α)
    (tweet : List α → Except JobError Unit) (tMs : Int) :
    Except JobError Unit × Except JobError Unit :=
  (fetchRotation,
    rankingFamily fetchRanking tweet (calculateLeagueDate (tMs - 120 * 60 * 1000)))

/-- What the periodic job reports at the end of a run: the success log, or the
single caught error with its level. -/
def periodicReport {α : Type} (run : PeriodicRun α) :
    Bool × Option (LogLevel × JobError) :=
  (run.successLogged, run.caught)

/-! ## Monthly job (`index.js` lines 72–85)

Runs daily at 09:20 UTC; computes `moment().utc().subtract(1, 'month')`, reads
`year()` and `month() + 1` from it, fetches that X ranking, and attaches a
`.then`/`.catch` pair that logs either way. -/

/-- `moment(now).utc().subtract(1, 'month')` restricted to the fields the job
reads: given the current UTC year and 1-based month, the previous calendar
month (moment decrements the month field, borrowing from the year when the
month is January; day-of-month clamping never changes year or month). -/
def previousCalendarMonth (year : Int) (month : Nat) : Int × Nat :=
  if month = 1 then (year - 1, 12) else (year, month - 1)

/-- Everything observable about one run of the monthly callback. -/
structure MonthlyRun where
  /-- The `year` argument passed to `fetchXRanking`. -/
  fetchedYear : Int
  /-- The `month` argument passed to `fetchXRanking`. -/
  fetchedMonth : Nat
  /-- Whether the `.then` success log ran. -/
  successLogged : Bool
  /-- The error received by the `.catch`, logged with `console.error`. -/
  failureLogged : Option JobError
  /-- Whether a rejection escaped the callback. -/
  escaped : Bool
deriving DecidableEq, Repr

/-- The monthly job callback (`index.js` lines 72–85), given the current UTC
year and 1-based month and the outcome of `fetchXRanking`. -/
def monthlyJob (nowYear : Int) (nowMonth : Nat)
    (fetchX : Int → Nat → Except JobError Unit) : MonthlyRun :=
  match fetchX (previousCalendarMonth nowYear nowMonth).1
      (previousCalendarMonth nowYear nowMonth).2 with
  | .ok _ => ⟨(previousCalendarMonth nowYear nowMonth).1,
      (previousCalendarMonth nowYear nowMonth).2, true, none, false⟩
  | .error e => ⟨(previousCalendarMonth nowYear nowMonth).1,
      (previousCalendarMonth nowYear nowMonth).2, false, some e, false⟩

/-! ## TTL cache (`src/cache`, used at `src/web-api.js` `/distributions/*`) -/

/-- One cache entry: the stored value and the time it was stored. -/
structure CacheEntry (α : Type) where
  value : α
  storedAt : Nat
deriving DecidableEq, Repr

/-- The cache store, keyed by name; the earliest entry for a key is the
current one (storing shadows any previous entry for the key). -/
abbrev CacheState (α : Type) := List (String × CacheEntry α)

/-- The outcome of one `Cache.wrap` call: the value returned or exception
propagated, the store afterwards, and whether `producer` was invoked. -/
structure WrapOutcome (ε α : Type) where
  result : Except ε α
  state : CacheState α
  producerRan : Bool
deriving Repr

namespace Cache

/-- Modelled from the spec: `Cache.wrap` lives in `src/cache`, which is not
among the provided sources (only its call sites in `src/web-api.js` are).
Per §4.6: if a non-expired entry exists for `key` (`now - storedAt < ttl`),
return its value without invoking `producer`; otherwise invoke `producer`,
store the result with `storedAt = now`, and return it; a `producer` exception
propagates to the caller and leaves any prior entry untouched. -/
def wrap {ε α : Type} (now : Nat) (key : String) (producer : Except ε α)
    (ttl : Nat) (st : CacheState α) : WrapOutcome ε α :=
  let fresh : WrapOutcome ε α :=
    match producer with
    | .ok v => ⟨.ok v, (key, ⟨v, now⟩) :: st, true⟩
    | .error e => ⟨.error e, st, true⟩
  match st.lookup key with
  | some entry =>
    if now - entry.storedAt < ttl then ⟨.ok entry.value, st, false⟩
    else fresh
  | none => fresh

end Cache

/-! ## `/records` month-keyed file cache (`src/web-api.js` lines 350–383)

The handler reads the start time of the latest ingested X-ranking snapshot,
builds `cache/weapons-x-top-players.${YYYY-MM}.json`, and either reads that
file (`cacheHit = true`, no per-weapon queries) or runs the per-weapon
top-player queries and writes the file. -/

/-- The cache path built by the `/records` handler from the `YYYY-MM` month of
the latest ingested X-ranking snapshot. -/
def recordsCachePath (month : String) : String :=
  "cache/weapons-x-top-players." ++ month ++ ".json"

/-- The cache directory as a map from path to stored JSON payload. -/
abbrev FileStore (α : Type) := List (String × α)

/-- The cacheable part of one `/records` request. -/
structure RecordsRun (α : Type) where
  /-- The `cacheHit` flag included in the response. -/
  cacheHit : Bool
  /-- The `weapons_top_players` payload of the response. -/
  weaponTopPlayers : α
  /-- Whether the per-weapon `queryWeaponTopPlayers` queries ran. -/
  ranWeaponQueries : Bool
  /-- The cache directory afterwards. -/
  store : FileStore α
deriving DecidableEq, Repr

/-- The caching logic of the `/records` handler: `month` is the formatted
month of `queryLatestXRankingStartTime()`, `computed` the value the
per-weapon queries would produce, `fs` the cache directory. -/
def recordsTopPlayers {α : Type} (month : String) (computed : α)
    (fs : FileStore α) : RecordsRun α :=
  let path := recordsCachePath month
  match fs.lookup path with
  | some v => ⟨true, v, false, fs⟩
  | none => ⟨false, computed, true, (path, computed) :: fs⟩

/-! ## Theorems -/

/-- C2: at every firing time `tMs` of the periodic job, the snapshot
identifier it fetches is the one `calculateLeagueDate` produces for
`tMs − 120` minutes — and that identifier always differs from the one
`calculateLeagueDate` would produce for `tMs` itself. -/
theorem periodic_identifier_uses_offset_time {α : Type} (tMs : Int)
    (fetchRotation : Except JobError Unit)
    (fetchRanking : String → Except JobError α)
    (tweet : List α → Except JobError Unit) :
    (periodicJob tMs fetchRotation fetchRanking tweet).leagueDate
        = calculateLeagueDate (tMs - 120 * 60 * 1000)
      ∧ calculateLeagueDate (tMs - 120 * 60 * 1000) ≠ calculateLeagueDate tMs := by
  refine ⟨rfl, ?_⟩
  unfold calculateLeagueDate
  omega

/-- A `JobError` is classified at info level exactly when it is a
`NintendoAPIError`. -/
lemma classifyPeriodicError_info_iff (e : JobError) :
    (∃ m, e = JobError.nintendoAPIError m)
      ↔ classifyPeriodicError e = LogLevel.info := by
  cases e <;> simp [classifyPeriodicError]

/-- C4: whatever the periodic job's inputs, no rejection escapes the
callback, and any caught error is logged at info level exactly when it is a
`NintendoAPIError` and at error level otherwise. -/
theorem periodic_error_classified_and_swallowed {α : Type} (tMs : Int)
    (fetchRotation : Except JobError Unit)
    (fetchRanking : String → Except JobError α)
    (tweet : List α → Except JobError Unit) :
    (periodicJob tMs fetchRotation fetchRanking tweet).escaped = false
      ∧ ∀ lvl e,
          (periodicJob tMs fetchRotation fetchRanking tweet).caught
              = some (lvl, e) →
            ((∃ m, e = JobError.nintendoAPIError m) ↔ lvl = LogLevel.info) := by
  refine ⟨rfl, ?_⟩
  intro lvl e hcaught
  simp only [periodicJob] at hcaught
  split at hcaught
  · exact Option.noConfusion hcaught
  · rw [Option.some.injEq, Prod.mk.injEq] at hcaught
    obtain ⟨hl, he⟩ := hcaught
    rw [← he, ← hl]
    exact classifyPeriodicError_info_iff _

/-- C5: on each periodic trigger exactly the two sub-group ids (the derived
`leagueDate` suffixed `T` and `P`) are fetched; `tweetLeagueUpdates` receives
both results as one batch when both fetches succeed and never runs when
either fetch failed. -/
theorem periodic_two_subgroup_fetches_gate_notification {α : Type} (tMs : Int)
    (fetchRotation : Except JobError Unit)
    (fetchRanking : String → Except JobError α)
    (tweet : List α → Except JobError Unit) :
    (periodicJob tMs fetchRotation fetchRanking tweet).leagueIdsFetched
        = [toString (calculateLeagueDate (tMs - 120 * 60 * 1000)) ++ "T",
            toString (calculateLeagueDate (tMs - 120 * 60 * 1000)) ++ "P"]
      ∧ (∀ a b,
          fetchRanking
              (toString (calculateLeagueDate (tMs - 120 * 60 * 1000)) ++ "T")
            = .ok a →
          fetchRanking
              (toString (calculateLeagueDate (tMs - 120 * 60 * 1000)) ++ "P")
            = .ok b →
          (periodicJob tMs fetchRotation fetchRanking tweet).tweetedBatch
            = some [a, b])
      ∧ (∀ e,
          (fetchRanking
                (toString (calculateLeagueDate (tMs - 120 * 60 * 1000)) ++ "T")
              = .error e
            ∨ fetchRanking
                (toString (calculateLeagueDate (tMs - 120 * 60 * 1000)) ++ "P")
              = .error e) →
          (periodicJob tMs fetchRotation fetchRanking tweet).tweetedBatch
            = none) := by
  refine ⟨rfl, ?_, ?_⟩
  · intro a b hT hP
    simp only [periodicJob, fetchLeagueRankings, promiseAll2, hT, hP]
  · intro e h
    rcases h with hT | hP
    · simp only [periodicJob, fetchLeagueRankings, promiseAll2, hT]
    · rcases hfT : fetchRanking
          (toString (calculateLeagueDate (tMs - 120 * 60 * 1000)) ++ "T")
        with eT | vT <;>
        simp only [periodicJob, fetchLeagueRankings, promiseAll2, hfT, hP]

/-- C6 counterexample: two periodic runs with different per-family outcomes —
rotation failed while rankings and notification succeeded, versus rotation
and rankings both failed — produce the identical final report, so the job's
report is a single combined outcome, not a per-family one. -/
theorem periodic_report_not_per_family_cex :
    familyOutcomes (α := Nat) (.error (.unexpected "network error"))
          (fun _ => .ok 0) (fun _ => .ok ()) 0
        ≠ familyOutcomes (α := Nat) (.error (.unexpected "network error"))
          (fun _ => .error (.unexpected "network error")) (fun _ => .ok ()) 0
      ∧ periodicReport (periodicJob (α := Nat) 0
            (.error (.unexpected "network error"))
            (fun _ => .ok 0) (fun _ => .ok ()))
          = periodicReport (periodicJob (α := Nat) 0
            (.error (.unexpected "network error"))
            (fun _ => .error (.unexpected "network error"))
            (fun _ => .ok ())) := by
  constructor
  · simp [familyOutcomes, rankingFamily, fetchLeagueRankings, promiseAll2]
  · rfl

/-- C6 (amended): the rotation fetch and the ranking-plus-notify family are
joined in one combined wait; a rotation failure does not change whether the
notification step runs (nor which batch it gets), the rotation fetch is
started regardless of the ranking family, and the job reports one combined
outcome — the success log exactly when both families succeeded. -/
theorem periodic_combined_wait_families {α : Type} (tMs : Int)
    (fetchRotation fetchRotation' : Except JobError Unit)
    (fetchRanking : String → Except JobError α)
    (tweet : List α → Except JobError Unit) :
    (periodicJob tMs fetchRotation fetchRanking tweet).tweetedBatch
        = (periodicJob tMs fetchRotation' fetchRanking tweet).tweetedBatch
      ∧ (periodicJob tMs fetchRotation fetchRanking tweet).rotationStarted
          = true
      ∧ ((periodicJob tMs fetchRotation fetchRanking tweet).successLogged
            = true
          ↔ familyOutcomes fetchRotation fetchRanking tweet tMs
              = (.ok (), .ok ())) := by
  refine ⟨rfl, rfl, ?_⟩
  -- `120 * 60 * 1000` appears as the reduced literal once the goal is
  -- simplified, so the case split names the reduced form.
  rcases hfr : fetchRotation with e | u <;>
    rcases hrf : rankingFamily fetchRanking tweet
        (calculateLeagueDate (tMs - 7200000)) with e' | u' <;>
      simp [periodicJob, familyOutcomes, promiseAll2, hfr, hrf]

/-- C7: on every trigger of the monthly-semantics job the fetched snapshot
identifier is the previous calendar month of the current UTC time — month in
`1..12`, a January trigger rolling over to December of the previous year —
and a fetch failure is logged and never escapes the callback. -/
theorem monthly_fetches_previous_month_and_swallows (nowYear : Int)
    (nowMonth : Nat) (fetchX : Int → Nat → Except JobError Unit)
    (h1 : 1 ≤ nowMonth) (h2 : nowMonth ≤ 12) :
    (1 ≤ (monthlyJob nowYear nowMonth fetchX).fetchedMonth
        ∧ (monthlyJob nowYear nowMonth fetchX).fetchedMonth ≤ 12)
      ∧ (nowMonth = 1 →
          (monthlyJob nowYear nowMonth fetchX).fetchedYear = nowYear - 1
            ∧ (monthlyJob nowYear nowMonth fetchX).fetchedMonth = 12)
      ∧ (2 ≤ nowMonth →
          (monthlyJob nowYear nowMonth fetchX).fetchedYear = nowYear
            ∧ (monthlyJob nowYear nowMonth fetchX).fetchedMonth
                = nowMonth - 1)
      ∧ (monthlyJob nowYear nowMonth fetchX).escaped = false
      ∧ (∀ e,
          fetchX (monthlyJob nowYear nowMonth fetchX).fetchedYear
              (monthlyJob nowYear nowMonth fetchX).fetchedMonth
            = .error e →
          (monthlyJob nowYear nowMonth fetchX).failureLogged = some e
            ∧ (monthlyJob nowYear nowMonth fetchX).successLogged = false) := by
  rcases hfx : fetchX (previousCalendarMonth nowYear nowMonth).1
      (previousCalendarMonth nowYear nowMonth).2 with e0 | u0
  · simp only [monthlyJob, hfx]
    refine ⟨?_, ?_, ?_, trivial, ?_⟩
    · unfold previousCalendarMonth
      split <;> omega
    · intro h
      subst h
      simp [previousCalendarMonth]
    · intro h
      have hne : nowMonth ≠ 1 := by omega
      simp [previousCalendarMonth, hne]
    · intro e he
      injection he with h
      subst h
      exact ⟨rfl, trivial⟩
  · simp only [monthlyJob, hfx]
    refine ⟨?_, ?_, ?_, trivial, ?_⟩
    · unfold previousCalendarMonth
      split <;> omega
    · intro h
      subst h
      simp [previousCalendarMonth]
    · intro h
      have hne : nowMonth ≠ 1 := by omega
      simp [previousCalendarMonth, hne]
    · intro e he
      exact Except.noConfusion he

/-- C10: when `DO_NOT_FETCH_SPLATFEST` is set the daily job performs no
work at all; otherwise the schedule-sync fetch comes first and must succeed
before the backlog is queried and drained. -/
theorem daily_flag_skips_and_schedule_sync_first
    (schedFetch : Except JobError Unit) (schedDur : Nat)
    (backlog : List SplatfestItem) (queryDur : Nat)
    (fetchSR : SplatfestItem → Except JobError Unit)
    (dur : SplatfestItem → Nat) (t0 : Nat) :
    dailyJob true schedFetch schedDur backlog queryDur fetchSR dur t0
        = ([], .completed)
      ∧ (∀ e, schedFetch = .error e →
          dailyJob false schedFetch schedDur backlog queryDur fetchSR dur t0
            = ([.scheduleSync], .escaped e))
      ∧ (schedFetch = .ok () →
          (dailyJob false schedFetch schedDur backlog queryDur fetchSR dur
              t0).1
            = .scheduleSync :: .backlogQuery ::
                (drainBacklog fetchSR dur (t0 + schedDur + queryDur)
                    backlog).1.map .fetch) := by
  refine ⟨rfl, ?_, ?_⟩
  · intro e he
    simp [dailyJob, he]
  · intro hok
    simp [dailyJob, hok]

/-- Projecting the fetch events out of a successful-schedule daily trace
recovers the drain's event list. -/
lemma fetchEvents_daily_trace (evs : List FetchEv) :
    fetchEvents (.scheduleSync :: .backlogQuery :: evs.map .fetch) = evs := by
  simp only [fetchEvents, List.filterMap_cons, List.filterMap_map]
  induction evs with
  | nil => rfl
  | cons ev rest ih => simpa [List.filterMap_cons] using ih

/-- If every item of `pre` fetches successfully and `s`'s fetch fails with
`e`, the drain fetches exactly `pre ++ [s]` — nothing after `s` — and the
rejection escapes. -/
lemma drainBacklog_aborts_at_failure
    (fetchSR : SplatfestItem → Except JobError Unit)
    (dur : SplatfestItem → Nat) (s : SplatfestItem) (e : JobError)
    (post : List SplatfestItem) (hs : fetchSR s = .error e) :
    ∀ (pre : List SplatfestItem) (t : Nat),
      (∀ x ∈ pre, fetchSR x = .ok ()) →
      attemptedItems (drainBacklog fetchSR dur t (pre ++ s :: post)).1
          = pre ++ [s]
        ∧ (drainBacklog fetchSR dur t (pre ++ s :: post)).2 = .escaped e := by
  intro pre
  induction pre with
  | nil =>
    intro t _
    simp [drainBacklog, hs, attemptedItems]
  | cons x xs ih =>
    intro t hok
    have hx : fetchSR x = .ok () := hok x (List.mem_cons_self x xs)
    have hxs : ∀ y ∈ xs, fetchSR y = .ok () := fun y hy =>
      hok y (List.mem_cons_of_mem x hy)
    have ihspec := ih (wait (t + dur x) 60000) hxs
    have hstep : drainBacklog fetchSR dur t ((x :: xs) ++ s :: post)
        = (⟨x, t, t + dur x, true⟩ ::
            (drainBacklog fetchSR dur (wait (t + dur x) 60000)
                (xs ++ s :: post)).1,
          (drainBacklog fetchSR dur (wait (t + dur x) 60000)
              (xs ++ s :: post)).2) := by
      simp only [List.cons_append, drainBacklog, hx]
      rfl
    have ih1 := ihspec.1
    simp only [attemptedItems] at ih1
    constructor
    · rw [hstep]
      simp only [attemptedItems, List.map_cons, List.cons_append]
      rw [ih1]
    · rw [hstep]
      exact ihspec.2

/-- C1 counterexample: with backlog `[1, 2, 3]` and item 2's fetch failing
with an expected remote error, item 3 is never attempted and the rejection
escapes the daily job's callback — the failure is neither caught inside the
loop nor kept from crossing the job boundary. -/
theorem daily_drain_not_fault_isolated_cex :
    (⟨"na", 3⟩ : SplatfestItem) ∈ [(⟨"na", 1⟩ : SplatfestItem), ⟨"na", 2⟩, ⟨"na", 3⟩]
      ∧ (⟨"na", 3⟩ : SplatfestItem) ∉ attemptedItems (fetchEvents
          (dailyJob false (.ok ()) 0
              [⟨"na", 1⟩, ⟨"na", 2⟩, ⟨"na", 3⟩] 0
              (fun item =>
                if item.splatfest_id = 2 then
                  .error (.nintendoAPIError "not yet available")
                else .ok ())
              (fun _ => 0) 0).1)
      ∧ (dailyJob false (.ok ()) 0
            [⟨"na", 1⟩, ⟨"na", 2⟩, ⟨"na", 3⟩] 0
            (fun item =>
              if item.splatfest_id = 2 then
                .error (.nintendoAPIError "not yet available")
              else .ok ())
            (fun _ => 0) 0).2
          = .escaped (.nintendoAPIError "not yet available") := by
  refine ⟨by decide, by decide, by decide⟩

/-- C1 (amended): in the daily backlog drain a failing fetch is not caught
inside the loop: the items before the failing one are attempted, the failing
one is attempted, every later item is skipped, and the rejection escapes the
daily job's callback. -/
theorem daily_drain_aborts_on_failure
    (schedDur queryDur t0 : Nat) (pre post : List SplatfestItem)
    (s : SplatfestItem) (e : JobError)
    (fetchSR : SplatfestItem → Except JobError Unit)
    (dur : SplatfestItem → Nat)
    (hpre : ∀ x ∈ pre, fetchSR x = .ok ()) (hs : fetchSR s = .error e) :
    attemptedItems (fetchEvents
        (dailyJob false (.ok ()) schedDur (pre ++ s :: post) queryDur
            fetchSR dur t0).1)
        = pre ++ [s]
      ∧ (dailyJob false (.ok ()) schedDur (pre ++ s :: post) queryDur
            fetchSR dur t0).2
          = .escaped e := by
  have h := drainBacklog_aborts_at_failure fetchSR dur s e post hs pre
    (t0 + schedDur + queryDur) hpre
  constructor
  · simp only [dailyJob, Bool.false_eq_true, if_false, fetchEvents_daily_trace]
    exact h.1
  · simp only [dailyJob, Bool.false_eq_true, if_false]
    exact h.2

/-- Timing shape of a drain run that starts at time `t`: the first fetch
starts at `t`, each fetch settles no earlier than it starts, and the next
fetch starts only at the previous settle time plus the 60-second delay. -/
def ChainedFrom : Nat → List FetchEv → Prop
  | _, [] => True
  | t, ev :: rest =>
    ev.startT = t ∧ ev.startT ≤ ev.settleT
      ∧ ChainedFrom (ev.settleT + 60000) rest

/-- Every drain run is chained from its start time. -/
lemma drainBacklog_chainedFrom (fetchSR : SplatfestItem → Except JobError Unit)
    (dur : SplatfestItem → Nat) :
    ∀ (backlog : List SplatfestItem) (t : Nat),
      ChainedFrom t (drainBacklog fetchSR dur t backlog).1 := by
  intro backlog
  induction backlog with
  | nil =>
    intro t
    trivial
  | cons x xs ih =>
    intro t
    rcases hx : fetchSR x with e | u
    · simp [drainBacklog, hx, ChainedFrom]
    · simp [drainBacklog, hx, ChainedFrom, wait]
      exact ih (t + dur x + 60000)

/-- In a run chained from `t`, every fetch starts no earlier than `t`. -/
lemma chainedFrom_le_start (evs : List FetchEv) :
    ∀ (t : Nat), ChainedFrom t evs →
      ∀ (k : Nat) (hk : k < evs.length), t ≤ (evs.get ⟨k, hk⟩).startT := by
  induction evs with
  | nil =>
    intro t _ k hk
    exact absurd hk (by simp)
  | cons ev rest ih =>
    intro t h k hk
    obtain ⟨h1, h2, h3⟩ := h
    cases k with
    | zero => exact h1.ge
    | succ k' =>
      have hk' : k' < rest.length := by simpa using hk
      calc t = ev.startT := h1.symm
        _ ≤ ev.settleT := h2
        _ ≤ ev.settleT + 60000 := Nat.le_add_right _ _
        _ ≤ _ := ih (ev.settleT + 60000) h3 k' hk'

/-- In a run chained from `t`, a later fetch starts only after an earlier
fetch's settle time plus the 60-second delay. -/
lemma chainedFrom_settle_le_start (evs : List FetchEv) :
    ∀ (t : Nat), ChainedFrom t evs →
      ∀ (i j : Nat) (hij : i < j) (hj : j < evs.length),
        (evs.get ⟨i, lt_trans hij hj⟩).settleT + 60000
          ≤ (evs.get ⟨j, hj⟩).startT := by
  induction evs with
  | nil =>
    intro t _ i j hij hj
    exact absurd hj (by simp)
  | cons ev rest ih =>
    intro t h i j hij hj
    obtain ⟨h1, h2, h3⟩ := h
    cases i with
    | zero =>
      cases j with
      | zero => exact absurd hij (lt_irrefl 0)
      | succ j' =>
        exact chainedFrom_le_start rest (ev.settleT + 60000) h3 j'
          (by simpa using hj)
    | succ i' =>
      cases j with
      | zero => exact absurd hij (by omega)
      | succ j' =>
        exact ih (ev.settleT + 60000) h3 i' j' (by omega) (by simpa using hj)

/-- C3: within one backlog drain, a later item's fetch never starts before an
earlier item's fetch has settled and the fixed 60-second delay has elapsed —
in particular consecutive fetches never overlap, so items are never fetched
concurrently. -/
theorem backlog_drain_strictly_sequential
    (fetchSR : SplatfestItem → Except JobError Unit)
    (dur : SplatfestItem → Nat) (t : Nat) (backlog : List SplatfestItem)
    (i j : Nat) (hij : i < j)
    (hj : j < (drainBacklog fetchSR dur t backlog).1.length) :
    ((drainBacklog fetchSR dur t backlog).1.get
          ⟨i, lt_trans hij hj⟩).settleT + 60000
      ≤ ((drainBacklog fetchSR dur t backlog).1.get ⟨j, hj⟩).startT :=
  chainedFrom_settle_le_start (drainBacklog fetchSR dur t backlog).1 t
    (drainBacklog_chainedFrom fetchSR dur backlog t) i j hij hj

/-- C8: for the TTL cache used by the distribution endpoints: a first call on
a key with no entry invokes the producer, stores and returns its value; a
second call within `ttl` of storage returns the stored value without invoking
the producer (so two calls within `ttl` invoke the producer exactly once); a
call more than `ttl` after storage invokes the producer again; and whenever a
call does invoke a failing producer, the exception propagates to the caller
and the store — any prior entry included — is left untouched. -/
theorem cache_wrap_ttl_contract {ε α : Type} (key : String) (v : α)
    (ttl now : Nat) (st0 : CacheState α) (h0 : st0.lookup key = none) :
    (Cache.wrap (ε := ε) now key (.ok v) ttl st0).producerRan = true
      ∧ (Cache.wrap (ε := ε) now key (.ok v) ttl st0).result = .ok v
      ∧ (∀ (now2 : Nat) (prod2 : Except ε α), now2 - now < ttl →
          (Cache.wrap now2 key prod2 ttl
                (Cache.wrap (ε := ε) now key (.ok v) ttl st0).state).producerRan
              = false
            ∧ (Cache.wrap now2 key prod2 ttl
                  (Cache.wrap (ε := ε) now key (.ok v) ttl st0).state).result
                = .ok v)
      ∧ (∀ (now3 : Nat) (prod3 : Except ε α), ttl < now3 - now →
          (Cache.wrap now3 key prod3 ttl
              (Cache.wrap (ε := ε) now key (.ok v) ttl st0).state).producerRan
            = true)
      ∧ (∀ (e : ε) (st : CacheState α) (n : Nat),
          (Cache.wrap n key (.error e) ttl st).producerRan = true →
          (Cache.wrap n key (.error e) ttl st).result = .error e
            ∧ (Cache.wrap n key (.error e) ttl st).state = st) := by
  have hw1 : Cache.wrap (ε := ε) now key (.ok v) ttl st0
      = ⟨.ok v, (key, ⟨v, now⟩) :: st0, true⟩ := by
    simp [Cache.wrap, h0]
  refine ⟨by rw [hw1], by rw [hw1], ?_, ?_, ?_⟩
  · intro now2 prod2 h2
    rw [hw1]
    constructor <;> simp [Cache.wrap, List.lookup, h2]
  · intro now3 prod3 h3
    rw [hw1]
    have hns : ¬ (now3 - now < ttl) := by omega
    rcases prod3 with e3 | v3 <;> simp [Cache.wrap, List.lookup, hns]
  · intro e st n h
    rcases hl : st.lookup key with _ | entry
    · simp [Cache.wrap, hl]
    · by_cases hc : n - entry.storedAt < ttl
      · exfalso
        simp [Cache.wrap, hl, hc] at h
      · simp [Cache.wrap, hl, hc]

/-- C9: the `/records` top-player computation is cached under a path naming
the month of the latest ingested X-ranking snapshot: when that month's file
exists, its stored value is returned with `cacheHit` true and the per-weapon
queries do not run; when it does not exist, the queries run and the result is
stored under that month's path; and distinct months always yield distinct
paths, so a new latest month recomputes and stores afresh without any
explicit invalidation. -/
theorem records_cache_keyed_by_latest_month {α : Type} (month month' : String)
    (computed : α) (fs : FileStore α) :
    (∀ v, fs.lookup (recordsCachePath month) = some v →
        recordsTopPlayers month computed fs = ⟨true, v, false, fs⟩)
      ∧ (fs.lookup (recordsCachePath month) = none →
          recordsTopPlayers month computed fs
              = ⟨false, computed, true,
                  (recordsCachePath month, computed) :: fs⟩
            ∧ ((recordsTopPlayers month computed fs).store).lookup
                (recordsCachePath month) = some computed)
      ∧ (month ≠ month' →
          recordsCachePath month ≠ recordsCachePath month') := by
  refine ⟨?_, ?_, ?_⟩
  · intro v hv
    simp [recordsTopPlayers, hv]
  · intro hn
    constructor
    · simp [recordsTopPlayers, hn]
    · simp [recordsTopPlayers, hn, List.lookup]
  · intro hne heq
    apply hne
    have h2 := congrArg String.data heq
    simp only [recordsCachePath, String.data_append] at h2
    exact String.ext (List.append_cancel_left (List.append_cancel_right h2))

/-! ## Witnesses

Each witness instantiates its theorem at one concrete input, discharging the
hypotheses there. -/

/-- Witness for C1's amended theorem: a three-item backlog whose middle item
fails with an unexpected error. -/
theorem daily_drain_aborts_on_failure_witness :
    attemptedItems (fetchEvents
        (dailyJob false (.ok ()) 5
            ([⟨"eu", 1⟩] ++ (⟨"eu", 2⟩ : SplatfestItem) :: [⟨"eu", 3⟩]) 7
            (fun item =>
              if item.splatfest_id = 2 then .error (.unexpected "boom")
              else .ok ())
            (fun _ => 100) 0).1)
        = [⟨"eu", 1⟩] ++ [⟨"eu", 2⟩]
      ∧ (dailyJob false (.ok ()) 5
            ([⟨"eu", 1⟩] ++ (⟨"eu", 2⟩ : SplatfestItem) :: [⟨"eu", 3⟩]) 7
            (fun item =>
              if item.splatfest_id = 2 then .error (.unexpected "boom")
              else .ok ())
            (fun _ => 100) 0).2
          = .escaped (.unexpected "boom") :=
  daily_drain_aborts_on_failure 5 7 0 [⟨"eu", 1⟩] [⟨"eu", 3⟩] ⟨"eu", 2⟩
    (.unexpected "boom")
    (fun item =>
      if item.splatfest_id = 2 then .error (.unexpected "boom") else .ok ())
    (fun _ => 100)
    (by
      intro x hx
      rw [List.mem_singleton] at hx
      subst hx
      rfl)
    rfl

/-- Witness for C2: the periodic identifier at a concrete firing time. -/
theorem periodic_identifier_uses_offset_time_witness :
    (periodicJob (α := Unit) 1696000000000 (.ok ()) (fun _ => .ok ())
          (fun _ => .ok ())).leagueDate
        = calculateLeagueDate (1696000000000 - 120 * 60 * 1000)
      ∧ calculateLeagueDate (1696000000000 - 120 * 60 * 1000)
          ≠ calculateLeagueDate 1696000000000 :=
  periodic_identifier_uses_offset_time 1696000000000 (.ok ())
    (fun _ => .ok ()) (fun _ => .ok ())

/-- Witness for C3: a two-item drain starting at time 0 with one-second
fetches. -/
theorem backlog_drain_strictly_sequential_witness :
    ((drainBacklog (fun _ => .ok ()) (fun _ => 1000) 0
            [⟨"eu", 10⟩, ⟨"eu", 11⟩]).1.get ⟨0, by decide⟩).settleT + 60000
      ≤ ((drainBacklog (fun _ => .ok ()) (fun _ => 1000) 0
            [⟨"eu", 10⟩, ⟨"eu", 11⟩]).1.get ⟨1, by decide⟩).startT :=
  backlog_drain_strictly_sequential (fun _ => .ok ()) (fun _ => 1000) 0
    [⟨"eu", 10⟩, ⟨"eu", 11⟩] 0 1 (by decide) (by decide)

/-- Witness for C4: a run whose combined wait fails with a
`NintendoAPIError`, logged at info level. -/
theorem periodic_error_classified_and_swallowed_witness :
    (periodicJob (α := Nat) 0 (.error (.nintendoAPIError "locked"))
          (fun _ => .ok 1) (fun _ => .ok ())).escaped = false
      ∧ ((∃ m, JobError.nintendoAPIError "locked"
              = JobError.nintendoAPIError m)
          ↔ LogLevel.info = LogLevel.info) :=
  ⟨(periodic_error_classified_and_swallowed 0
        (.error (.nintendoAPIError "locked")) (fun _ => .ok 1)
        (fun _ => .ok ())).1,
    (periodic_error_classified_and_swallowed 0
        (.error (.nintendoAPIError "locked")) (fun _ => .ok 1)
        (fun _ => .ok ())).2 .info (.nintendoAPIError "locked") rfl⟩

/-- Witness for C5: both sub-group fetches succeed, so the notification step
receives both results as one batch. -/
theorem periodic_two_subgroup_fetches_gate_notification_witness :
    (periodicJob (α := Nat) 7200000 (.ok ()) (fun _ => .ok 5)
          (fun _ => .ok ())).tweetedBatch = some [5, 5] :=
  (periodic_two_subgroup_fetches_gate_notification 7200000 (.ok ())
      (fun _ => .ok 5) (fun _ => .ok ())).2.1 5 5 rfl rfl

/-- Witness for C6's amended theorem at concrete inputs. -/
theorem periodic_combined_wait_families_witness :
    (periodicJob (α := Nat) 0 (.ok ()) (fun _ => .ok 2)
          (fun _ => .ok ())).tweetedBatch
        = (periodicJob (α := Nat) 0 (.error (.unexpected "x"))
              (fun _ => .ok 2) (fun _ => .ok ())).tweetedBatch
      ∧ (periodicJob (α := Nat) 0 (.ok ()) (fun _ => .ok 2)
            (fun _ => .ok ())).rotationStarted = true
      ∧ ((periodicJob (α := Nat) 0 (.ok ()) (fun _ => .ok 2)
              (fun _ => .ok ())).successLogged = true
          ↔ familyOutcomes (α := Nat) (.ok ()) (fun _ => .ok 2)
              (fun _ => .ok ()) 0 = (.ok (), .ok ())) :=
  periodic_combined_wait_families 0 (.ok ()) (.error (.unexpected "x"))
    (fun _ => .ok 2) (fun _ => .ok ())

/-- Witness for C7: a January 2024 trigger fetches December 2023, and the
fetch failure is logged without escaping. -/
theorem monthly_fetches_previous_month_and_swallows_witness :
    (monthlyJob 2024 1 (fun _ _ => .error (.unexpected "down"))).fetchedYear
        = 2023
      ∧ (monthlyJob 2024 1
            (fun _ _ => .error (.unexpected "down"))).fetchedMonth = 12 := by
  have h := monthly_fetches_previous_month_and_swallows 2024 1
    (fun _ _ => .error (.unexpected "down")) (by decide) (by decide)
  have h2 := h.2.1 rfl
  refine ⟨?_, h2.2⟩
  rw [h2.1]
  decide

/-- Witness for C8: the `distributions_x` key with its 86400-second TTL — a
hit one second before expiry, a recomputation one second after. -/
theorem cache_wrap_ttl_contract_witness :
    (Cache.wrap (ε := Unit) 86399 "distributions_x" (.error ()) 86400
          (Cache.wrap (ε := Unit) 0 "distributions_x" (.ok 42) 86400
              []).state).result = .ok 42
      ∧ (Cache.wrap (ε := Unit) 86401 "distributions_x" (.error ()) 86400
            (Cache.wrap (ε := Unit) 0 "distributions_x" (.ok 42) 86400
                []).state).producerRan = true := by
  have h := cache_wrap_ttl_contract (ε := Unit) "distributions_x" 42 86400 0
    [] rfl
  exact ⟨(h.2.2.1 86399 (.error ()) (by decide)).2,
    h.2.2.2.1 86401 (.error ()) (by decide)⟩

/-- Witness for C9: a store holding only September's file misses for
October, recomputes and stores October's file; the two paths differ. -/
theorem records_cache_keyed_by_latest_month_witness :
    recordsTopPlayers "2023-10" (7 : Nat)
          [(recordsCachePath "2023-09", 5)]
        = ⟨false, 7, true, (recordsCachePath "2023-10", 7)
            :: [(recordsCachePath "2023-09", 5)]⟩
      ∧ recordsCachePath "2023-09" ≠ recordsCachePath "2023-10" := by
  have h1 := records_cache_keyed_by_latest_month (α := Nat) "2023-10"
    "2023-09" 7 [(recordsCachePath "2023-09", 5)]
  have h2 := records_cache_keyed_by_latest_month (α := Nat) "2023-09"
    "2023-10" 7 []
  exact ⟨(h1.2.1 (by decide)).1, h2.2.2 (by decide)⟩

/-- Witness for C10: with the flag set the daily job does nothing; with it
clear and the schedule sync succeeding, sync precedes the backlog query. -/
theorem daily_flag_skips_and_schedule_sync_first_witness :
    dailyJob true (.ok ()) 1 [⟨"jp", 4⟩] 1 (fun _ => .ok ()) (fun _ => 1) 0
        = ([], .completed)
      ∧ (dailyJob false (.ok ()) 1 [⟨"jp", 4⟩] 1 (fun _ => .ok ())
            (fun _ => 1) 0).1
          = .scheduleSync :: .backlogQuery ::
              (drainBacklog (fun _ => .ok ()) (fun _ => 1) (0 + 1 + 1)
                  [⟨"jp", 4⟩]).1.map .fetch := by
  have h := daily_flag_skips_and_schedule_sync_first (.ok ()) 1 [⟨"jp", 4⟩] 1
    (fun _ => .ok ()) (fun _ => 1) 0
  exact ⟨h.1, h.2.2 rfl⟩

end SplatoonStats
